import Mathlib

/-!
Verification of the BillPathOK data-synchronization and stage-classification
pipeline (`src/database/sync-database.js`, the stage logic duplicated in
`src/server.js`, and the relational schema `src/schema.sql`).

The JavaScript code is shallowly embedded: source records fetched from the
external API become Lean structures, the PostgreSQL tables become lists of row
structures, and each SQL statement issued by the sync becomes a pure function
on that state.  Machine-level concerns (timestamps, serial ids) are modelled
with `Nat`; nullable columns and optional JS fields with `Option`.
-/

namespace BillPathOK

/-! ## String helpers mirroring JavaScript primitives -/

/-- Decides whether `needle` occurs contiguously inside the second list,
mirroring `String.prototype.includes` on the underlying character sequence. -/
def containsSeq (needle : List Char) : List Char → Bool
  | [] => needle.isEmpty
  | c :: rest => needle.isPrefixOf (c :: rest) || containsSeq needle rest

/-- Models `hay.toLowerCase().includes(needle)` for an already-lowercase
`needle` (the classifier only searches for lowercase literals). -/
def jsIncludesLower (hay : String) (needle : String) : Bool :=
  containsSeq needle.toList (hay.toList.map Char.toLower)

/-- Models the JavaScript `a || b` fallback on a nullable string: `null`,
`undefined` and the empty string are falsy and select the default. -/
def jsOrStr (o : Option String) (d : String) : String :=
  match o with
  | some s => if s = "" then d else s
  | none => d

/-- Models a JavaScript template-literal interpolation `${x}` of a possibly
`undefined` value, which renders as the literal text `undefined`. -/
def jsInterp (o : Option String) : String :=
  match o with
  | some s => s
  | none => "undefined"

/-! ## Source records

Shapes of the records the Open States API returns, restricted to the fields
the sync pipeline reads.  A JS `undefined`/`null` field is `none`; an action's
`classification` array is a `List String` (`undefined` behaves like `[]` in
every use site: `?.[0]` and `?.includes` are both falsy on it). -/

/-- One element of `bill.actions` as read by the pipeline:
`date`, `description`, `classification` (array of tags) and
`organization?.classification`. -/
structure ActionRec where
  date : String
  description : String
  classification : List String
  organization : Option String
deriving DecidableEq

/-- One bill record from the source API, restricted to the fields
`syncBills` and `determineBillStage` read. -/
structure BillRecord where
  id : String
  session_identifier : Option String
  identifier : String
  title : String
  description : Option String
  classification : Option String
  subject : List String
  from_organization : Option String
  first_action_date : Option String
  latest_action_date : Option String
  latest_action_description : Option String
  versions_first_url : Option String
  actions : List ActionRec
deriving DecidableEq

/-- One legislator record, modelled at the SQL boundary: the eight values the
upsert in `syncLegislators` passes as `$1 .. $8` (`openstates_id, name, party,
chamber, district, image_url, email, phone`), after the JS field extraction. -/
structure LegRecord where
  openstates_id : String
  name : String
  party : Option String
  chamber : Option String
  district : Option String
  image_url : Option String
  email : Option String
  phone : Option String
deriving DecidableEq

/-! ## Stage classification -/

/-- Primary classification tag of one action: `a.classification?.[0]`, with
JS falsiness dropping both a missing array head and an empty string (the
`.filter(Boolean)` in the classifier and the `|| null` in the action insert
treat them identically). -/
def primaryTag (a : ActionRec) : Option String :=
  match a.classification.head? with
  | some t => if t = "" then none else some t
  | none => none

/-- Embeds `bill.actions.map(a => a.classification?.[0]).filter(Boolean)`:
the list of primary tags across all actions, dropping falsy entries. -/
def primaryTags (actions : List ActionRec) : List String :=
  actions.filterMap primaryTag

/-- Embeds `determineBillStage` from `src/database/sync-database.js`
(lines 21-42).  Note this copy has no free-text fallback: after the tag
checks it returns `introduced` directly. -/
def determineBillStage (bill : BillRecord) : String :=
  if bill.actions = [] then "introduced"
  else
    let actionTypes := primaryTags bill.actions
    if "executive-signature" ∈ actionTypes then "signed"
    else if "executive-veto" ∈ actionTypes then "vetoed"
    else if "became-law" ∈ actionTypes then "became_law"
    else if "passage" ∈ actionTypes then
      let passageActions := bill.actions.filter (fun a => decide ("passage" ∈ a.classification))
      if 2 ≤ passageActions.length then "enrolled" else "passed_chamber"
    else if "committee-passage" ∈ actionTypes then "committee_approved"
    else if "referral-committee" ∈ actionTypes then "committee"
    else if "reading-3" ∈ actionTypes then "floor_calendar"
    else if "introduction" ∈ actionTypes then "introduced"
    else "introduced"

/-- Embeds `determineBillStage` from `src/server.js` (lines 33-69).  This copy
recognizes the extra tags `committee-referral` and `filing` and, when no tag
matches, falls back to a case-insensitive substring search over the bill's
`latest_action_description` field (skipped when that field is falsy). -/
def serverDetermineBillStage (bill : BillRecord) : String :=
  if bill.actions = [] then "introduced"
  else
    let actionTypes := primaryTags bill.actions
    if "executive-signature" ∈ actionTypes then "signed"
    else if "executive-veto" ∈ actionTypes then "vetoed"
    else if "became-law" ∈ actionTypes then "became_law"
    else if "passage" ∈ actionTypes then
      let passageActions := bill.actions.filter (fun a => decide ("passage" ∈ a.classification))
      if 2 ≤ passageActions.length then "enrolled" else "passed_chamber"
    else if "committee-passage" ∈ actionTypes then "committee_approved"
    else if "referral-committee" ∈ actionTypes ∨ "committee-referral" ∈ actionTypes then "committee"
    else if "reading-3" ∈ actionTypes then "floor_calendar"
    else if "introduction" ∈ actionTypes ∨ "filing" ∈ actionTypes then "introduced"
    else
      match bill.latest_action_description with
      | some d =>
        if d = "" then "introduced"
        else
          if jsIncludesLower d "signed" then "signed"
          else if jsIncludesLower d "veto" then "vetoed"
          else if jsIncludesLower d "enrolled" then "enrolled"
          else if jsIncludesLower d "passed" then "passed_chamber"
          else if jsIncludesLower d "committee" then "committee"
          else "introduced"
      | none => "introduced"

/-- Free-text fallback as the specification words it (step 11 plus the final
fallback of step 12): case-insensitive substring match over a description for
"signed" / "veto" / "enrolled" / "passed" / "committee" in that priority
order, defaulting to `introduced`.  Kept separate from the embedded
classifiers so their fallback behaviour can be compared against it. -/
def fallbackStage (d : String) : String :=
  if jsIncludesLower d "signed" then "signed"
  else if jsIncludesLower d "veto" then "vetoed"
  else if jsIncludesLower d "enrolled" then "enrolled"
  else if jsIncludesLower d "passed" then "passed_chamber"
  else if jsIncludesLower d "committee" then "committee"
  else "introduced"

/-- Every classification tag either copy of the classifier reacts to. -/
def recognizedTags : List String :=
  ["executive-signature", "executive-veto", "became-law", "passage",
   "committee-passage", "referral-committee", "committee-referral",
   "reading-3", "introduction", "filing"]

/-- The nine stage strings the classifiers can produce. -/
def stageValues : List String :=
  ["introduced", "committee", "committee_approved", "floor_calendar",
   "passed_chamber", "enrolled", "signed", "vetoed", "became_law"]

/-! ## Relational state

Each table written by the sync becomes a list of row structures, in insertion
order.  Serial `id` columns are kept only where the code reads them back
(`bills.id`, returned by the upsert and used as the foreign key of history,
action and sponsorship rows).  `TIMESTAMP` columns are `Nat` instants supplied
by a `now` parameter; `DEFAULT NOW()` audit columns that no code reads
(`created_at` of child tables, `changed_at`) are omitted. -/

/-- Row of `legislators` (schema.sql lines 17-29); the serial `id` is omitted
because the modelled claims never read it. -/
structure LegRow where
  openstates_id : String
  name : String
  party : Option String
  chamber : Option String
  district : Option String
  image_url : Option String
  email : Option String
  phone : Option String
  created_at : Nat
  updated_at : Nat
deriving DecidableEq

/-- Row of `bills` (schema.sql lines 32-51) as written by the sync.  The
`stage` column is nullable in the schema but every write of the pipeline
supplies a classifier result, so it is a plain `String` here. -/
structure BillRow where
  id : Nat
  openstates_id : String
  session_id : String
  identifier : String
  title : String
  description : String
  classification : Option String
  subject : List String
  current_status : Option String
  current_chamber : Option String
  stage : String
  first_action_date : Option String
  latest_action_date : Option String
  latest_action_description : Option String
  full_text_url : Option String
  openstates_url : String
  created_at : Nat
  updated_at : Nat
deriving DecidableEq

/-- Row of `bill_history` (schema.sql lines 66-74); `previous_stage` is a
plain `String` because the inserting code only fires when the old stage was a
truthy string. -/
structure HistRow where
  bill_id : Nat
  stage : String
  status : Option String
  previous_stage : String
deriving DecidableEq

/-- Row of `bill_actions` (schema.sql lines 54-63). -/
structure ActionRow where
  bill_id : Nat
  date : String
  description : String
  classification : Option String
  chamber : Option String
  order_index : Nat
deriving DecidableEq

/-- Row of `sync_metadata` (schema.sql lines 140-149) for one sync type. -/
structure MetaRow where
  status : String
  last_sync_at : Option Nat
  last_success_at : Option Nat
  records_synced : Option Nat
  error_message : Option String
deriving DecidableEq

/-- The initial `sync_metadata` row seeded by schema.sql line 170. -/
def pendingMeta : MetaRow :=
  { status := "pending", last_sync_at := none, last_success_at := none,
    records_synced := none, error_message := none }

/-- The storage state the pipeline owns.  `sync_metadata` keeps one row per
sync type; only the `legislators` and `bills` rows are ever touched by the
pipeline, so just those two are carried.  Sponsorship rows are written by
`syncBills` but read by no verified property, so the `sponsorships` table is
not carried. -/
structure DB where
  legislators : List LegRow
  bills : List BillRow
  nextBillId : Nat
  history : List HistRow
  billActions : List ActionRow
  legMeta : MetaRow
  billMeta : MetaRow
deriving DecidableEq

/-- A freshly installed database: empty tables, serial counter at 1,
`pending` metadata rows. -/
def emptyDB : DB :=
  { legislators := [], bills := [], nextBillId := 1, history := [],
    billActions := [], legMeta := pendingMeta, billMeta := pendingMeta }

/-! ## Legislator upsert -/

/-- Embeds the upsert of `syncLegislators` (sync-database.js lines 65-86):
`INSERT INTO legislators ... ON CONFLICT (openstates_id) DO UPDATE SET
name, party, chamber, district, updated_at = NOW()`.  On conflict only those
five columns change (`EXCLUDED` values plus the timestamp); a fresh row takes
all eight record values with both timestamps set. -/
def upsertLegRows (rows : List LegRow) (rec : LegRecord) (now : Nat) : List LegRow :=
  if rows.any (fun r => decide (r.openstates_id = rec.openstates_id)) then
    rows.map (fun r =>
      if r.openstates_id = rec.openstates_id then
        { r with name := rec.name, party := rec.party, chamber := rec.chamber,
                 district := rec.district, updated_at := now }
      else r)
  else
    rows ++ [{ openstates_id := rec.openstates_id, name := rec.name,
               party := rec.party, chamber := rec.chamber,
               district := rec.district, image_url := rec.image_url,
               email := rec.email, phone := rec.phone,
               created_at := now, updated_at := now }]

/-! ## Bill upsert, history and actions -/

/-- The `bills` row the subselect in the upsert's `RETURNING` clause sees:
first row matching the external identifier (the column is `UNIQUE`, so at
most one exists). -/
def findBill (db : DB) (oid : String) : Option BillRow :=
  db.bills.find? (fun r => decide (r.openstates_id = oid))

/-- The `openstates_url` value built by the template literal at
sync-database.js line 179. -/
def openstatesUrl (rec : BillRecord) : String :=
  "https://openstates.org/ok/bills/" ++ jsInterp rec.session_identifier
    ++ "/" ++ rec.identifier

/-- Embeds the bill upsert (sync-database.js lines 147-180):
`INSERT INTO bills ... ON CONFLICT (openstates_id) DO UPDATE SET title,
current_status, stage, latest_action_date, latest_action_description,
updated_at RETURNING id, stage, (SELECT stage FROM bills WHERE
openstates_id = $1) as old_stage`.

The scalar subselect in `RETURNING` runs under the statement's snapshot, under
which the statement's own write is not yet visible, so it yields the stage
persisted *before* this upsert — `NULL` (here `none`) when the bill is being
inserted for the first time.  Returns the updated state, the serial id of the
bill row, and that old stage. -/
def upsertBill (db : DB) (rec : BillRecord) (stage : String) (now : Nat) :
    DB × Nat × Option String :=
  match findBill db rec.id with
  | some r =>
    ({ db with bills := db.bills.map (fun row =>
          if row.openstates_id = rec.id then
            { row with title := rec.title,
                       current_status := rec.latest_action_description,
                       stage := stage,
                       latest_action_date := rec.latest_action_date,
                       latest_action_description := rec.latest_action_description,
                       updated_at := now }
          else row) },
     r.id, some r.stage)
  | none =>
    ({ db with
        bills := db.bills ++
          [{ id := db.nextBillId, openstates_id := rec.id,
             session_id := jsOrStr rec.session_identifier "2026",
             identifier := rec.identifier, title := rec.title,
             description := jsOrStr rec.description rec.title,
             classification := rec.classification, subject := rec.subject,
             current_status := rec.latest_action_description,
             current_chamber := rec.from_organization, stage := stage,
             first_action_date := rec.first_action_date,
             latest_action_date := rec.latest_action_date,
             latest_action_description := rec.latest_action_description,
             full_text_url := rec.versions_first_url,
             openstates_url := openstatesUrl rec,
             created_at := now, updated_at := now }],
        nextBillId := db.nextBillId + 1 },
     db.nextBillId, none)

/-- Embeds the history insert (sync-database.js lines 187-190):
`INSERT INTO bill_history (bill_id, stage, status, previous_stage)`. -/
def insertHistory (db : DB) (billId : Nat) (stage : String)
    (status : Option String) (prev : String) : DB :=
  { db with history := db.history ++
      [{ bill_id := billId, stage := stage, status := status,
         previous_stage := prev }] }

/-- Embeds one action insert (sync-database.js lines 197-209):
`INSERT INTO bill_actions (bill_id, date, description, classification,
chamber, order_index) VALUES ... ON CONFLICT DO NOTHING`.

A targetless `ON CONFLICT DO NOTHING` suppresses only unique violations, and
`bill_actions` (schema.sql lines 54-63) carries no unique constraint besides
its serial primary key, which a plain insert can never violate — so the
statement always inserts and the clause never fires.  The embedding therefore
appends unconditionally. -/
def insertBillAction (db : DB) (billId : Nat) (a : ActionRec) (idx : Nat) : DB :=
  { db with billActions := db.billActions ++
      [{ bill_id := billId, date := a.date, description := a.description,
         classification := primaryTag a, chamber := a.organization,
         order_index := idx }] }

/-- Embeds the indexed action loop of `syncBills` (lines 195-210), inserting
each source action with its position as `order_index`. -/
def syncActionsFrom (db : DB) (billId : Nat) (i : Nat) : List ActionRec → DB
  | [] => db
  | a :: rest => syncActionsFrom (insertBillAction db billId a i) billId (i + 1) rest

/-- Embeds the per-bill body of `syncBills` (lines 143-237): classify, upsert
the bill row, insert a history row when the returned `old_stage` is truthy
and differs from the new stage, then insert the actions.  The sponsorship
inserts (lines 214-236) touch only the unmodelled `sponsorships` table and
change nothing a verified property mentions, so they are not carried. -/
def processBill (db : DB) (rec : BillRecord) (now : Nat) : DB :=
  let stage := determineBillStage rec
  let res := upsertBill db rec stage now
  let billId := res.2.1
  let oldStage := res.2.2
  let db2 :=
    match oldStage with
    | some s =>
      if s ≠ "" ∧ s ≠ stage then
        insertHistory res.1 billId stage rec.latest_action_description s
      else res.1
    | none => res.1
  syncActionsFrom db2 billId 0 rec.actions

/-! ## Page-fetch loop

Both syncs run the same `while (page <= cap)` loop shape: fetch a page, break
on an empty result list, process every record, then break unless the response
carries pagination metadata with `max_page` still above the current page.  A
fetch is a function from a page number to either an error (network failure,
timeout, non-2xx — anything axios rejects with) or page data. -/

/-- Pagination metadata of a source response (`response.data.pagination`). -/
structure Pagination where
  max_page : Nat
deriving DecidableEq

/-- One source response page: `response.data.results` plus optional
pagination metadata. -/
structure PageData (α : Type) where
  results : List α
  pagination : Option Pagination
deriving DecidableEq

/-- Outcome of the page loop: normal completion or an abort, both carrying the
storage state reached so far (writes before a failure persist — there is no
transaction), the record total, and the trace of page numbers whose fetch was
attempted, in order. -/
inductive LoopOut (σ : Type) where
  | ok (s : σ) (total : Nat) (fetched : List Nat)
  | err (s : σ) (fetched : List Nat) (msg : String)

/-- State reached by the loop, on either outcome. -/
def LoopOut.state : LoopOut σ → σ
  | .ok s _ _ => s
  | .err s _ _ => s

/-- Trace of attempted page numbers, on either outcome. -/
def LoopOut.fetched : LoopOut σ → List Nat
  | .ok _ _ tr => tr
  | .err _ tr _ => tr

/-- Whether the loop completed without error. -/
def LoopOut.isOk : LoopOut σ → Bool
  | .ok _ _ _ => true
  | .err _ _ _ => false

/-- One iteration step plus recursion of the shared page loop.  `fuel` is the
number of page fetches the cap still allows (`cap - page + 1` at entry), so
fuel 0 is exactly the loop condition `page <= cap` turning false. -/
def pageLoopAux (fetch : Nat → Except String (PageData α)) (handle : σ → α → σ) :
    Nat → Nat → σ → Nat → List Nat → LoopOut σ
  | 0, _, s, total, tr => .ok s total tr
  | fuel + 1, page, s, total, tr =>
    match fetch page with
    | .error e => .err s (tr ++ [page]) e
    | .ok pd =>
      if pd.results.isEmpty then .ok s total (tr ++ [page])
      else
        let s' := pd.results.foldl handle s
        let total' := total + pd.results.length
        match pd.pagination with
        | none => .ok s' total' (tr ++ [page])
        | some pg =>
          if pg.max_page ≤ page then .ok s' total' (tr ++ [page])
          else pageLoopAux fetch handle fuel (page + 1) s' total' (tr ++ [page])

/-- The page loop from page 1 with hard cap `cap`. -/
def pageLoop (fetch : Nat → Except String (PageData α)) (handle : σ → α → σ)
    (cap : Nat) (s : σ) : LoopOut σ :=
  pageLoopAux fetch handle cap 1 s 0 []

/-- An error-free source: every page fetch succeeds with the given data. -/
def pureFetch (pages : Nat → PageData α) : Nat → Except String (PageData α) :=
  fun p => .ok (pages p)

/-- Condition under which the loop body stops after fetching page `p` of an
error-free source: empty results, missing pagination metadata, or the current
page having reached `max_page`. -/
def stopPageB (pages : Nat → PageData α) (p : Nat) : Bool :=
  (pages p).results.isEmpty ||
    match (pages p).pagination with
    | none => true
    | some pg => decide (pg.max_page ≤ p)

/-- Page numbers an error-free loop run fetches, starting at `page` with
`fuel` fetches still allowed. -/
def fetchedPages (pages : Nat → PageData α) : Nat → Nat → List Nat
  | 0, _ => []
  | fuel + 1, page =>
    if stopPageB pages page then [page]
    else page :: fetchedPages pages fuel (page + 1)

/-! ## The two syncs and the orchestrator -/

/-- The page loop of `syncLegislators` (sync-database.js lines 52-96):
cap 10, upserting every fetched legislator. -/
def legislatorPageLoop (fetch : Nat → Except String (PageData LegRecord))
    (now : Nat) (db : DB) : LoopOut DB :=
  pageLoop fetch
    (fun d r => { d with legislators := upsertLegRows d.legislators r now }) 10 db

/-- The page loop of `syncBills` (sync-database.js lines 131-246):
cap 20 (`maxPages`), processing every fetched bill. -/
def billPageLoop (fetch : Nat → Except String (PageData BillRecord))
    (now : Nat) (db : DB) : LoopOut DB :=
  pageLoop fetch (fun d b => processBill d b now) 20 db

/-- Embeds `syncLegislators` (lines 45-120): run the page loop, then update
the `legislators` metadata row — on success `last_sync_at`, `last_success_at`,
`status = 'success'` and the record count; on a caught error `last_sync_at`,
`status = 'error'` and the message, after which the error is rethrown
(modelled by the `Except` in the result). -/
def syncLegislators (fetch : Nat → Except String (PageData LegRecord))
    (now : Nat) (db : DB) : DB × Except String Nat :=
  match legislatorPageLoop fetch now db with
  | .ok db' total _ =>
    ({ db' with legMeta := { db'.legMeta with
        status := "success", last_sync_at := some now,
        last_success_at := some now, records_synced := some total } },
     .ok total)
  | .err db' _ e =>
    ({ db' with legMeta := { db'.legMeta with
        status := "error", last_sync_at := some now, error_message := some e } },
     .error e)

/-- Embeds `syncBills` (lines 123-270): same shape over the `bills` metadata
row. -/
def syncBills (fetch : Nat → Except String (PageData BillRecord))
    (now : Nat) (db : DB) : DB × Except String Nat :=
  match billPageLoop fetch now db with
  | .ok db' total _ =>
    ({ db' with billMeta := { db'.billMeta with
        status := "success", last_sync_at := some now,
        last_success_at := some now, records_synced := some total } },
     .ok total)
  | .err db' _ e =>
    ({ db' with billMeta := { db'.billMeta with
        status := "error", last_sync_at := some now, error_message := some e } },
     .error e)

/-- How the `runSync` process terminates. -/
inductive ExitKind where
  | normal
  | exited (code : Nat)
deriving DecidableEq

/-- Observable outcome of one orchestrator run. -/
structure RunResult where
  db : DB
  poolEnded : Bool
  billsStarted : Bool
  outcome : ExitKind
deriving DecidableEq

/-- Embeds `runSync` (sync-database.js lines 273-312): connection probe, then
`syncLegislators`, then `syncBills`, inside
`try ... catch { process.exit(1) } finally { await pool.end() }`.

Node's `process.exit` terminates the process at once without unwinding the
JavaScript stack, so when the `catch` block runs `process.exit(1)` the
pending `finally` block — and with it `pool.end()` — never executes.  The
pool is therefore only closed on the success path, where the `try` body
completes and control reaches `finally` normally.  `connOk` models whether
the initial `SELECT NOW()` probe succeeds. -/
def runSync (connOk : Bool) (fetchL : Nat → Except String (PageData LegRecord))
    (fetchB : Nat → Except String (PageData BillRecord))
    (now : Nat) (db : DB) : RunResult :=
  if connOk then
    match syncLegislators fetchL now db with
    | (db1, .ok _) =>
      match syncBills fetchB now db1 with
      | (db2, .ok _) =>
        { db := db2, poolEnded := true, billsStarted := true, outcome := .normal }
      | (db2, .error _) =>
        { db := db2, poolEnded := false, billsStarted := true, outcome := .exited 1 }
    | (db1, .error _) =>
      { db := db1, poolEnded := false, billsStarted := false, outcome := .exited 1 }
  else
    { db := db, poolEnded := false, billsStarted := false, outcome := .exited 1 }

/-! ## Concrete records and states used by witnesses and counterexamples -/

/-- The `bills` row present after `seededDB`'s bill is re-processed from
`approvedBill` at time 1. -/
def approvedRow : BillRow :=
  { id := 1, openstates_id := "ocd-bill/c1", session_id := "2024",
    identifier := "HB5", title := "t", description := "t",
    classification := none, subject := [],
    current_status := some "Reported Do Pass", current_chamber := none,
    stage := "committee_approved", first_action_date := none,
    latest_action_date := none,
    latest_action_description := some "Reported Do Pass",
    full_text_url := none, openstates_url := "u",
    created_at := 0, updated_at := 1 }

/-- Concrete bill refuting C4 as stated: its single action carries
`executive-signature` among its classification tags, but not in first
position, and the classifier returns `passed_chamber`. -/
def signatureSecondBill : BillRecord :=
  { id := "ocd-bill/c4", session_identifier := some "2024",
    identifier := "HB2001", title := "t", description := none,
    classification := none, subject := [], from_organization := none,
    first_action_date := none, latest_action_date := none,
    latest_action_description := none, versions_first_url := none,
    actions := [{ date := "2024-05-01", description := "Signed",
                  classification := ["passage", "executive-signature"],
                  organization := none }] }

/-- Concrete bill refuting C3 for the sync pipeline's classifier: non-empty
action list, no recognized primary tag, and a latest-action description
containing "signed". -/
def unrecognizedTagBill : BillRecord :=
  { id := "ocd-bill/c3", session_identifier := some "2024",
    identifier := "HB3001", title := "t", description := none,
    classification := none, subject := [], from_organization := none,
    first_action_date := none, latest_action_date := none,
    latest_action_description := some "Signed by Governor",
    versions_first_url := none,
    actions := [{ date := "2024-06-01", description := "Signed by Governor",
                  classification := ["became-law-ceremony"],
                  organization := none }] }

/-- A database seeded with one bill stored at stage `committee`. -/
def seededDB : DB :=
  { emptyDB with
      bills := [{ id := 1, openstates_id := "ocd-bill/c1", session_id := "2024",
                  identifier := "HB5", title := "t", description := "t",
                  classification := none, subject := [], current_status := none,
                  current_chamber := none, stage := "committee",
                  first_action_date := none, latest_action_date := none,
                  latest_action_description := none, full_text_url := none,
                  openstates_url := "u", created_at := 0, updated_at := 0 }],
      nextBillId := 2 }

/-- Source record for the seeded bill, now carrying a committee-passage
action so it classifies as `committee_approved`. -/
def approvedBill : BillRecord :=
  { id := "ocd-bill/c1", session_identifier := some "2024", identifier := "HB5",
    title := "t", description := none, classification := none, subject := [],
    from_organization := none, first_action_date := none,
    latest_action_date := none,
    latest_action_description := some "Reported Do Pass",
    versions_first_url := none,
    actions := [{ date := "2024-03-01", description := "Reported Do Pass",
                  classification := ["committee-passage"],
                  organization := none }] }

/-- Source record used to exercise the action-insert path twice. -/
def introducedBill : BillRecord :=
  { id := "ocd-bill/c2", session_identifier := some "2024", identifier := "HB6",
    title := "t", description := none, classification := none, subject := [],
    from_organization := none, first_action_date := none,
    latest_action_date := none,
    latest_action_description := some "First Reading",
    versions_first_url := none,
    actions := [{ date := "2024-02-01", description := "First Reading",
                  classification := ["introduction"], organization := none }] }

/-- Legislator record as first synced. -/
def aliceV1 : LegRecord :=
  { openstates_id := "ocd-person/1", name := "Alice Doe", party := some "R",
    chamber := some "upper", district := some "12",
    image_url := some "img-url", email := some "alice@ok.gov", phone := none }

/-- The same legislator on a later sync, with a changed party and cleared
contact fields. -/
def aliceV2 : LegRecord :=
  { openstates_id := "ocd-person/1", name := "Alice Doe", party := some "D",
    chamber := some "upper", district := some "12",
    image_url := none, email := none, phone := none }

/-- The row the first sync inserts for `aliceV1` at time 3. -/
def aliceRow : LegRow :=
  { openstates_id := "ocd-person/1", name := "Alice Doe", party := some "R",
    chamber := some "upper", district := some "12",
    image_url := some "img-url", email := some "alice@ok.gov", phone := none,
    created_at := 3, updated_at := 3 }

/-- A source whose every legislator-page fetch fails. -/
def failLegFetch : Nat → Except String (PageData LegRecord) :=
  fun _ => .error "network timeout"

/-- A source reporting an empty legislator page. -/
def emptyLegFetch : Nat → Except String (PageData LegRecord) :=
  fun _ => .ok { results := [], pagination := none }

/-- A source reporting an empty bill page. -/
def emptyBillFetch : Nat → Except String (PageData BillRecord) :=
  fun _ => .ok { results := [], pagination := none }

/-- A legislator source whose every page has one record and no pagination
metadata. -/
def constLegPages : Nat → PageData LegRecord :=
  fun _ => { results := [aliceV1], pagination := none }

/-- A bill source whose every page has one record and no pagination
metadata. -/
def constBillPages : Nat → PageData BillRecord :=
  fun _ => { results := [introducedBill], pagination := none }

/-- A legislator source failing on page 2 after a healthy page 1. -/
def flakyLegFetch : Nat → Except String (PageData LegRecord) :=
  fun p => if p = 2 then .error "boom"
           else .ok { results := [aliceV1], pagination := some { max_page := 5 } }

/-! ## Helper lemmas -/

theorem mem_primaryTags {a : ActionRec} {l : List ActionRec} {t : String}
    (ha : a ∈ l) (h : primaryTag a = some t) : t ∈ primaryTags l := by
  unfold primaryTags
  exact List.mem_filterMap.mpr ⟨a, ha, h⟩

theorem actions_ne_nil_of_mem_primaryTags {l : List ActionRec} {t : String}
    (h : t ∈ primaryTags l) : l ≠ [] := by
  unfold primaryTags at h
  rcases List.mem_filterMap.mp h with ⟨a, ha, -⟩
  exact List.ne_nil_of_mem ha

theorem syncActionsFrom_history (db : DB) (billId : Nat) (i : Nat)
    (l : List ActionRec) : (syncActionsFrom db billId i l).history = db.history := by
  induction l generalizing db i with
  | nil => rfl
  | cons a rest ih => simp [syncActionsFrom, insertBillAction, ih]

theorem syncActionsFrom_bills (db : DB) (billId : Nat) (i : Nat)
    (l : List ActionRec) : (syncActionsFrom db billId i l).bills = db.bills := by
  induction l generalizing db i with
  | nil => rfl
  | cons a rest ih => simp [syncActionsFrom, insertBillAction, ih]

/-! ## Claim C10: the classifiers' range -/

theorem determineBillStage_mem (rec : BillRecord) :
    determineBillStage rec ∈ stageValues := by
  unfold determineBillStage
  simp only []
  repeat' split
  all_goals decide

theorem serverDetermineBillStage_mem (rec : BillRecord) :
    serverDetermineBillStage rec ∈ stageValues := by
  unfold serverDetermineBillStage
  simp only []
  by_cases h0 : rec.actions = []
  · rw [if_pos h0]; decide
  rw [if_neg h0]
  by_cases h1 : "executive-signature" ∈ primaryTags rec.actions
  · rw [if_pos h1]; decide
  rw [if_neg h1]
  by_cases h2 : "executive-veto" ∈ primaryTags rec.actions
  · rw [if_pos h2]; decide
  rw [if_neg h2]
  by_cases h3 : "became-law" ∈ primaryTags rec.actions
  · rw [if_pos h3]; decide
  rw [if_neg h3]
  by_cases h4 : "passage" ∈ primaryTags rec.actions
  · rw [if_pos h4]
    by_cases h4b : 2 ≤ (rec.actions.filter (fun a => decide ("passage" ∈ a.classification))).length
    · rw [if_pos h4b]; decide
    · rw [if_neg h4b]; decide
  rw [if_neg h4]
  by_cases h5 : "committee-passage" ∈ primaryTags rec.actions
  · rw [if_pos h5]; decide
  rw [if_neg h5]
  by_cases h6 : "referral-committee" ∈ primaryTags rec.actions ∨
      "committee-referral" ∈ primaryTags rec.actions
  · rw [if_pos h6]; decide
  rw [if_neg h6]
  by_cases h7 : "reading-3" ∈ primaryTags rec.actions
  · rw [if_pos h7]; decide
  rw [if_neg h7]
  by_cases h8 : "introduction" ∈ primaryTags rec.actions ∨
      "filing" ∈ primaryTags rec.actions
  · rw [if_pos h8]; decide
  rw [if_neg h8]
  cases hld : rec.latest_action_description with
  | none => decide
  | some d =>
    simp only []
    by_cases hd : d = ""
    · rw [if_pos hd]; decide
    rw [if_neg hd]
    by_cases f1 : jsIncludesLower d "signed" = true
    · rw [if_pos f1]; decide
    rw [if_neg f1]
    by_cases f2 : jsIncludesLower d "veto" = true
    · rw [if_pos f2]; decide
    rw [if_neg f2]
    by_cases f3 : jsIncludesLower d "enrolled" = true
    · rw [if_pos f3]; decide
    rw [if_neg f3]
    by_cases f4 : jsIncludesLower d "passed" = true
    · rw [if_pos f4]; decide
    rw [if_neg f4]
    by_cases f5 : jsIncludesLower d "committee" = true
    · rw [if_pos f5]; decide
    rw [if_neg f5]
    decide

/-- C10.  Both copies of the stage classifier only ever produce one of the
nine stage strings `introduced`, `committee`, `committee_approved`,
`floor_calendar`, `passed_chamber`, `enrolled`, `signed`, `vetoed`,
`became_law` — in particular never `dead` — and every `bills.stage` value
present after a bill is processed is either the classifier's output for that
bill or a stage that was already stored, so the sync pipeline never stores
the stage `dead`. -/
theorem classifier_range_nine_stages (rec : BillRecord) (db : DB) (now : Nat) :
    determineBillStage rec ∈ stageValues ∧
    serverDetermineBillStage rec ∈ stageValues ∧
    determineBillStage rec ≠ "dead" ∧
    serverDetermineBillStage rec ≠ "dead" ∧
    ∀ r ∈ (processBill db rec now).bills,
      r.stage = determineBillStage rec ∨ r.stage ∈ db.bills.map (fun b => b.stage) := by
  refine ⟨determineBillStage_mem rec, serverDetermineBillStage_mem rec, ?_, ?_, ?_⟩
  · intro hd
    have := determineBillStage_mem rec
    rw [hd] at this
    exact absurd this (by decide)
  · intro hd
    have := serverDetermineBillStage_mem rec
    rw [hd] at this
    exact absurd this (by decide)
  · intro r hr
    have hb : (processBill db rec now).bills =
        (upsertBill db rec (determineBillStage rec) now).1.bills := by
      unfold processBill
      rcases h : (upsertBill db rec (determineBillStage rec) now).2.2 with _ | s
      · simp only [h, syncActionsFrom_bills]
      · by_cases hs : s ≠ "" ∧ s ≠ determineBillStage rec <;>
          simp [h, hs, insertHistory, syncActionsFrom_bills]
    rw [hb] at hr
    unfold upsertBill at hr
    rcases hf : findBill db rec.id with _ | q <;> rw [hf] at hr <;> simp only [] at hr
    · rcases List.mem_append.mp hr with hold | hnew
      · exact Or.inr (List.mem_map.mpr ⟨r, hold, rfl⟩)
      · rcases List.mem_singleton.mp hnew with rfl
        exact Or.inl rfl
    · rcases List.mem_map.mp hr with ⟨b, hbmem, rfl⟩
      by_cases hid : b.openstates_id = rec.id
      · rw [if_pos hid]
        exact Or.inl rfl
      · rw [if_neg hid]
        exact Or.inr (List.mem_map.mpr ⟨b, hbmem, rfl⟩)

/-- Witness for C10 at a concrete bill and stored row. -/
theorem classifier_range_nine_stages_w :
    determineBillStage approvedBill ∈ stageValues ∧
    (approvedRow.stage = determineBillStage approvedBill ∨
      approvedRow.stage ∈ seededDB.bills.map (fun b => b.stage)) :=
  ⟨(classifier_range_nine_stages approvedBill seededDB 1).1,
   (classifier_range_nine_stages approvedBill seededDB 1).2.2.2.2
     approvedRow (by decide)⟩

/-! ## Claim C5: passage counting -/

/-- C5.  When the primary-tag set contains `passage` and none of the three
higher-priority tags, the classifier counts the actions whose (full)
classification list includes `passage`: exactly one such action yields
`passed_chamber`, two or more yield `enrolled`. -/
theorem passage_count_selects_stage (b : BillRecord)
    (hp : "passage" ∈ primaryTags b.actions)
    (h1 : "executive-signature" ∉ primaryTags b.actions)
    (h2 : "executive-veto" ∉ primaryTags b.actions)
    (h3 : "became-law" ∉ primaryTags b.actions) :
    ((b.actions.filter (fun a => decide ("passage" ∈ a.classification))).length = 1 →
        determineBillStage b = "passed_chamber") ∧
    (2 ≤ (b.actions.filter (fun a => decide ("passage" ∈ a.classification))).length →
        determineBillStage b = "enrolled") := by
  have hne : b.actions ≠ [] := actions_ne_nil_of_mem_primaryTags hp
  constructor
  · intro hcnt
    unfold determineBillStage
    simp only []
    rw [if_neg hne, if_neg h1, if_neg h2, if_neg h3, if_pos hp, hcnt]
    simp
  · intro hcnt
    unfold determineBillStage
    simp only []
    rw [if_neg hne, if_neg h1, if_neg h2, if_neg h3, if_pos hp, if_pos hcnt]

/-- Witness for C5 at two concrete bills: one with a single passage-tagged
action, one with two. -/
theorem passage_count_selects_stage_w :
    determineBillStage
      { id := "b", session_identifier := none, identifier := "HB1",
        title := "t", description := none, classification := none,
        subject := [], from_organization := none, first_action_date := none,
        latest_action_date := none, latest_action_description := none,
        versions_first_url := none,
        actions := [{ date := "d1", description := "Third Reading",
                      classification := ["passage"], organization := none }] }
      = "passed_chamber" ∧
    determineBillStage
      { id := "b", session_identifier := none, identifier := "HB1",
        title := "t", description := none, classification := none,
        subject := [], from_organization := none, first_action_date := none,
        latest_action_date := none, latest_action_description := none,
        versions_first_url := none,
        actions := [{ date := "d1", description := "Passed House",
                      classification := ["passage"], organization := none },
                    { date := "d2", description := "Passed Senate",
                      classification := ["passage"], organization := none }] }
      = "enrolled" :=
  ⟨(passage_count_selects_stage _ (by decide) (by decide) (by decide) (by decide)).1
     (by decide),
   (passage_count_selects_stage _ (by decide) (by decide) (by decide) (by decide)).2
     (by decide)⟩

/-! ## Claim C4: executive-signature priority -/

/-- Counterexample to C4.  A bill whose action list contains an
`executive-signature` tag among an action's classification tags — in second
position — is classified `passed_chamber`, not `signed`: the classifier only
consults the first tag of each action. -/
theorem nonprimary_signature_tag_ignored_cex :
    (∃ a ∈ signatureSecondBill.actions, "executive-signature" ∈ a.classification) ∧
    determineBillStage signatureSecondBill = "passed_chamber" ∧
    determineBillStage signatureSecondBill ≠ "signed" := by decide

/-- C4 as amended.  When `executive-signature` is the *first* (primary)
classification tag of some action, both classifier copies return `signed`
regardless of every other tag present. -/
theorem primary_signature_tag_wins (b : BillRecord)
    (h : ∃ a ∈ b.actions, primaryTag a = some "executive-signature") :
    determineBillStage b = "signed" ∧ serverDetermineBillStage b = "signed" := by
  rcases h with ⟨a, ha, hpt⟩
  have hmem : "executive-signature" ∈ primaryTags b.actions := mem_primaryTags ha hpt
  have hne : b.actions ≠ [] := List.ne_nil_of_mem ha
  constructor
  · unfold determineBillStage
    simp only []
    rw [if_neg hne, if_pos hmem]
  · unfold serverDetermineBillStage
    simp only []
    rw [if_neg hne, if_pos hmem]

/-- Witness for the amended C4: a bill with both a veto-tagged and a
signature-tagged action still classifies as `signed`. -/
theorem primary_signature_tag_wins_w :
    determineBillStage
      { id := "ocd-bill/c4w", session_identifier := none, identifier := "HB3",
        title := "t", description := none, classification := none,
        subject := [], from_organization := none, first_action_date := none,
        latest_action_date := none, latest_action_description := none,
        versions_first_url := none,
        actions := [{ date := "d1", description := "Vetoed",
                      classification := ["executive-veto"], organization := none },
                    { date := "d2", description := "Signed",
                      classification := ["executive-signature"], organization := none }] }
      = "signed" :=
  (primary_signature_tag_wins _
    ⟨{ date := "d2", description := "Signed",
       classification := ["executive-signature"], organization := none },
     by decide, by decide⟩).1

/-! ## Claim C3: the free-text fallback -/

/-- Counterexample to C3.  On a bill with actions but no recognized primary
tag and description "Signed by Governor", the claimed fallback would produce
`signed`, but the sync pipeline's classifier
(`src/database/sync-database.js`) has no free-text fallback at all and
returns `introduced`. -/
theorem sync_classifier_lacks_text_fallback_cex :
    unrecognizedTagBill.actions ≠ [] ∧
    (∀ t ∈ primaryTags unrecognizedTagBill.actions, t ∉ recognizedTags) ∧
    fallbackStage "Signed by Governor" = "signed" ∧
    determineBillStage unrecognizedTagBill = "introduced" ∧
    determineBillStage unrecognizedTagBill ≠ "signed" := by decide

/-- C3 as amended.  Only the server copy of the classifier
(`src/server.js`) performs the free-text fallback, and it inspects the
bill's `latest_action_description` field (skipping the search when that
field is null or empty); on the same inputs the sync pipeline's classifier
returns `introduced` with no fallback. -/
theorem text_fallback_only_in_server_classifier (b : BillRecord)
    (hne : b.actions ≠ [])
    (hrec : ∀ t ∈ primaryTags b.actions, t ∉ recognizedTags) :
    determineBillStage b = "introduced" ∧
    serverDetermineBillStage b =
      (match b.latest_action_description with
       | some d => if d = "" then "introduced" else fallbackStage d
       | none => "introduced") := by
  have h1 : "executive-signature" ∉ primaryTags b.actions :=
    fun h => hrec _ h (by decide)
  have h2 : "executive-veto" ∉ primaryTags b.actions :=
    fun h => hrec _ h (by decide)
  have h3 : "became-law" ∉ primaryTags b.actions :=
    fun h => hrec _ h (by decide)
  have h4 : "passage" ∉ primaryTags b.actions :=
    fun h => hrec _ h (by decide)
  have h5 : "committee-passage" ∉ primaryTags b.actions :=
    fun h => hrec _ h (by decide)
  have h6 : ¬("referral-committee" ∈ primaryTags b.actions ∨
      "committee-referral" ∈ primaryTags b.actions) := by
    rintro (h | h) <;> exact hrec _ h (by decide)
  have h7 : "reading-3" ∉ primaryTags b.actions :=
    fun h => hrec _ h (by decide)
  have h8 : ¬("introduction" ∈ primaryTags b.actions ∨
      "filing" ∈ primaryTags b.actions) := by
    rintro (h | h) <;> exact hrec _ h (by decide)
  constructor
  · unfold determineBillStage
    simp only []
    rw [if_neg hne, if_neg h1, if_neg h2, if_neg h3, if_neg h4, if_neg h5,
      if_neg (fun h => h6 (Or.inl h)), if_neg h7,
      if_neg (fun h => h8 (Or.inl h))]
  · unfold serverDetermineBillStage
    simp only []
    rw [if_neg hne, if_neg h1, if_neg h2, if_neg h3, if_neg h4, if_neg h5,
      if_neg h6, if_neg h7, if_neg h8]
    cases b.latest_action_description with
    | none => rfl
    | some d =>
      simp only []
      by_cases hd : d = ""
      · rw [if_pos hd, if_pos hd]
      · rw [if_neg hd, if_neg hd]
        unfold fallbackStage
        rfl

/-- Witness for the amended C3: a bill with only an unrecognized tag and
description "Referred to Rules Committee" — the server classifier falls back
to `committee`, the sync classifier stays at `introduced`. -/
theorem text_fallback_only_in_server_classifier_w :
    ({ id := "ocd-bill/c3w", session_identifier := none, identifier := "HB4",
       title := "t", description := none, classification := none,
       subject := [], from_organization := none, first_action_date := none,
       latest_action_date := none,
       latest_action_description := some "Referred to Rules Committee",
       versions_first_url := none,
       actions := [{ date := "d1", description := "Referred to Rules Committee",
                     classification := ["odd-tag"], organization := none }] }
       : BillRecord).actions ≠ [] ∧
    determineBillStage
      { id := "ocd-bill/c3w", session_identifier := none, identifier := "HB4",
        title := "t", description := none, classification := none,
        subject := [], from_organization := none, first_action_date := none,
        latest_action_date := none,
        latest_action_description := some "Referred to Rules Committee",
        versions_first_url := none,
        actions := [{ date := "d1", description := "Referred to Rules Committee",
                      classification := ["odd-tag"], organization := none }] }
      = "introduced" :=
  ⟨by decide,
   (text_fallback_only_in_server_classifier _ (by decide) (by decide)).1⟩

/-! ## Claim C1: history row exactly on a stage change -/

/-- C1.  Processing one bill appends exactly one `bill_history` row when the
previously persisted stage exists and differs from the newly computed stage —
recording the new stage, the bill's latest action description as status, and
the previous stage — and appends nothing when the bill is new or the stage is
unchanged.  The hypothesis that stored stages are non-empty holds of every
state the pipeline itself writes, since the classifier never returns the
empty string. -/
theorem history_row_iff_stage_changed (db : DB) (rec : BillRecord) (now : Nat)
    (hwf : ∀ r ∈ db.bills, r.stage ≠ "") :
    (processBill db rec now).history =
      db.history ++
        (match findBill db rec.id with
         | none => []
         | some r =>
           if r.stage = determineBillStage rec then []
           else [{ bill_id := r.id, stage := determineBillStage rec,
                   status := rec.latest_action_description,
                   previous_stage := r.stage }]) := by
  unfold processBill
  simp only []
  rw [syncActionsFrom_history]
  unfold upsertBill
  rcases hf : findBill db rec.id with _ | r
  · simp
  · have hr : r ∈ db.bills := by
      unfold findBill at hf
      exact List.mem_of_find?_eq_some hf
    have hs : r.stage ≠ "" := hwf r hr
    simp only []
    by_cases hst : r.stage = determineBillStage rec
    · rw [if_neg (fun hc => hc.2 hst), if_pos hst]
      simp
    · rw [if_pos ⟨hs, hst⟩, if_neg hst]
      simp [insertHistory]

/-- Witness for C1: resyncing the seeded bill at its new stage inserts
exactly the one transition row `committee → committee_approved`. -/
theorem history_row_iff_stage_changed_w :
    (∀ r ∈ seededDB.bills, r.stage ≠ "") ∧
    (processBill seededDB approvedBill 9).history =
      [{ bill_id := 1, stage := "committee_approved",
         status := some "Reported Do Pass", previous_stage := "committee" }] :=
  ⟨by decide, by
    rw [history_row_iff_stage_changed seededDB approvedBill 9 (by decide)]
    decide⟩

/-! ## Claim C2: the action insert is not idempotent -/

/-- C2 evaluated at its failing input.  Syncing the same bill with the same
single action twice leaves two identical `bill_actions` rows (same bill,
date, description, classification and position): `bill_actions` has no
unique constraint for `ON CONFLICT DO NOTHING` to fire on, so the second
pass re-inserts the action.  The bill row itself is not duplicated. -/
theorem action_insert_not_idempotent :
    ((processBill (processBill emptyDB introducedBill 5) introducedBill 6).billActions.filter
        (fun row => decide (row.bill_id = 1 ∧ row.date = "2024-02-01" ∧
          row.description = "First Reading" ∧
          row.classification = some "introduction" ∧ row.order_index = 0))).length = 2 ∧
    (processBill (processBill emptyDB introducedBill 5) introducedBill 6).bills.length = 1 := by
  decide

/-! ## Claim C6: legislator upsert -/

/-- C6.  The legislator upsert is keyed by `openstates_id`: an unseen id
appends one new row holding all eight record values; a seen id keeps the row
count, rewrites only `name`, `party`, `chamber`, `district` and `updated_at`
on the matching row, leaves `openstates_id`, `email`, `phone`, `image_url`
(and `created_at`) untouched, and leaves every other row unchanged. -/
theorem legislator_upsert_keyed_by_external_id (rows : List LegRow)
    (rec : LegRecord) (now : Nat) :
    ((∀ r ∈ rows, r.openstates_id ≠ rec.openstates_id) →
      upsertLegRows rows rec now = rows ++
        [{ openstates_id := rec.openstates_id, name := rec.name,
           party := rec.party, chamber := rec.chamber,
           district := rec.district, image_url := rec.image_url,
           email := rec.email, phone := rec.phone,
           created_at := now, updated_at := now }]) ∧
    ((∃ r ∈ rows, r.openstates_id = rec.openstates_id) →
      (upsertLegRows rows rec now).length = rows.length ∧
      List.Forall₂ (fun r r' =>
          r'.openstates_id = r.openstates_id ∧ r'.email = r.email ∧
          r'.phone = r.phone ∧ r'.image_url = r.image_url ∧
          r'.created_at = r.created_at ∧
          (r.openstates_id = rec.openstates_id →
            r'.name = rec.name ∧ r'.party = rec.party ∧
            r'.chamber = rec.chamber ∧ r'.district = rec.district ∧
            r'.updated_at = now) ∧
          (r.openstates_id ≠ rec.openstates_id → r' = r))
        rows (upsertLegRows rows rec now)) := by
  constructor
  · intro h
    have hna : ¬rows.any (fun r => decide (r.openstates_id = rec.openstates_id)) = true := by
      intro hx
      rcases List.any_eq_true.mp hx with ⟨r, hrr, hp⟩
      exact h r hrr (of_decide_eq_true hp)
    unfold upsertLegRows
    rw [if_neg hna]
  · rintro ⟨r0, hr0, he0⟩
    have ha : rows.any (fun r => decide (r.openstates_id = rec.openstates_id)) = true :=
      List.any_eq_true.mpr ⟨r0, hr0, decide_eq_true he0⟩
    unfold upsertLegRows
    rw [if_pos ha]
    refine ⟨by simp, ?_⟩
    rw [List.forall₂_map_right_iff]
    apply List.forall₂_same.mpr
    intro r hr
    by_cases hid : r.openstates_id = rec.openstates_id
    · rw [if_pos hid]
      exact ⟨rfl, rfl, rfl, rfl, rfl,
        fun _ => ⟨rfl, rfl, rfl, rfl, rfl⟩, fun hn => absurd hid hn⟩
    · rw [if_neg hid]
      exact ⟨rfl, rfl, rfl, rfl, rfl, fun hh => absurd hh hid, fun _ => rfl⟩

/-- Witness for C6: inserting `aliceV1` into an empty table, then resyncing
as `aliceV2`, keeps one row and satisfies the frame conditions. -/
theorem legislator_upsert_keyed_by_external_id_w :
    (upsertLegRows [] aliceV1 3 = [aliceRow]) ∧
    (upsertLegRows [aliceRow] aliceV2 4).length = 1 ∧
    List.Forall₂ (fun r r' =>
        r'.openstates_id = r.openstates_id ∧ r'.email = r.email ∧
        r'.phone = r.phone ∧ r'.image_url = r.image_url ∧
        r'.created_at = r.created_at ∧
        (r.openstates_id = aliceV2.openstates_id →
          r'.name = aliceV2.name ∧ r'.party = aliceV2.party ∧
          r'.chamber = aliceV2.chamber ∧ r'.district = aliceV2.district ∧
          r'.updated_at = 4) ∧
        (r.openstates_id ≠ aliceV2.openstates_id → r' = r))
      [aliceRow] (upsertLegRows [aliceRow] aliceV2 4) :=
  ⟨(legislator_upsert_keyed_by_external_id [] aliceV1 3).1 (by simp),
   ((legislator_upsert_keyed_by_external_id [aliceRow] aliceV2 4).2
      ⟨aliceRow, by simp, by decide⟩).1,
   ((legislator_upsert_keyed_by_external_id [aliceRow] aliceV2 4).2
      ⟨aliceRow, by simp, by decide⟩).2⟩

/-! ## Claim C7: pool shutdown on the error path -/

/-- C7 evaluated at its failing input.  When legislator sync throws, the
`catch` block's `process.exit(1)` terminates the process before the
`finally` block runs, so `pool.end()` is never reached: the pool is closed
only on the success path. -/
theorem pool_not_closed_on_error_path :
    (runSync true failLegFetch emptyBillFetch 3 emptyDB).poolEnded = false ∧
    (runSync true failLegFetch emptyBillFetch 3 emptyDB).outcome = ExitKind.exited 1 ∧
    (runSync true emptyLegFetch emptyBillFetch 3 emptyDB).poolEnded = true ∧
    (runSync true emptyLegFetch emptyBillFetch 3 emptyDB).outcome = ExitKind.normal := by
  decide

/-! ## Page-loop lemmas -/

theorem range_map_add_cons (a n : Nat) :
    (List.range (n + 1)).map (fun i => a + i) =
      a :: (List.range n).map (fun i => (a + 1) + i) := by
  rw [List.range_succ_eq_map]
  simp only [List.map_cons, List.map_map, Nat.add_zero]
  refine congrArg (List.cons a) ?_
  apply List.map_congr_left
  intro i _
  simp only [Function.comp_apply]
  omega

theorem pageLoopAux_pureFetch (pages : Nat → PageData α) (handle : σ → α → σ) :
    ∀ (fuel page : Nat) (s : σ) (total : Nat) (tr : List Nat),
      ∃ s' t', pageLoopAux (pureFetch pages) handle fuel page s total tr =
        LoopOut.ok s' t' (tr ++ fetchedPages pages fuel page) := by
  intro fuel
  induction fuel with
  | zero =>
    intro page s total tr
    exact ⟨s, total, by simp [pageLoopAux, fetchedPages]⟩
  | succ fuel ih =>
    intro page s total tr
    by_cases he : (pages page).results.isEmpty
    · exact ⟨s, total, by simp [pageLoopAux, pureFetch, he, fetchedPages, stopPageB]⟩
    · cases hp : (pages page).pagination with
      | none =>
        exact ⟨(pages page).results.foldl handle s, total + (pages page).results.length,
          by simp [pageLoopAux, pureFetch, he, hp, fetchedPages, stopPageB]⟩
      | some pg =>
        by_cases hm : pg.max_page ≤ page
        · exact ⟨(pages page).results.foldl handle s, total + (pages page).results.length,
            by simp [pageLoopAux, pureFetch, he, hp, hm, fetchedPages, stopPageB]⟩
        · obtain ⟨s', t', iheq⟩ := ih (page + 1) ((pages page).results.foldl handle s)
            (total + (pages page).results.length) (tr ++ [page])
          refine ⟨s', t', ?_⟩
          have hfp : fetchedPages pages (fuel + 1) page =
              page :: fetchedPages pages fuel (page + 1) := by
            simp [fetchedPages, stopPageB, he, hp, hm]
          rw [hfp]
          have hstep : pageLoopAux (pureFetch pages) handle (fuel + 1) page s total tr =
              pageLoopAux (pureFetch pages) handle fuel (page + 1)
                ((pages page).results.foldl handle s)
                (total + (pages page).results.length) (tr ++ [page]) := by
            simp [pageLoopAux, pureFetch, he, hp, hm]
          rw [hstep, iheq]
          simp

theorem fetchedPages_spec (pages : Nat → PageData α) :
    ∀ (fuel page : Nat), ∃ n,
      fetchedPages pages fuel page = (List.range n).map (fun i => page + i) ∧
      n ≤ fuel ∧ (0 < fuel → 0 < n) ∧
      (∀ i, i + 1 < n → stopPageB pages (page + i) = false) ∧
      (0 < n → (stopPageB pages (page + (n - 1)) = true ∨ n = fuel)) := by
  intro fuel
  induction fuel with
  | zero =>
    intro page
    exact ⟨0, by simp [fetchedPages], Nat.le_refl 0,
      fun h => absurd h (by omega), fun i hi => absurd hi (by omega),
      fun h => absurd h (by omega)⟩
  | succ fuel ih =>
    intro page
    by_cases hs : stopPageB pages page = true
    · refine ⟨1, ?_, by omega, fun _ => by omega, fun i hi => absurd hi (by omega), ?_⟩
      · rw [show List.range 1 = [0] from rfl]
        simp [fetchedPages, hs]
      · intro _
        left
        simpa using hs
    · obtain ⟨n', heq, hle, hpos, hmid, hlast⟩ := ih (page + 1)
      have hs' : stopPageB pages page = false := by simpa using hs
      refine ⟨n' + 1, ?_, by omega, fun _ => by omega, ?_, ?_⟩
      · rw [show fetchedPages pages (fuel + 1) page =
            page :: fetchedPages pages fuel (page + 1) from by simp [fetchedPages, hs']]
        rw [heq, range_map_add_cons]
      · intro i hi
        cases i with
        | zero => simpa using hs'
        | succ j =>
          have hj : j + 1 < n' := by omega
          have := hmid j hj
          rw [show page + (j + 1) = (page + 1) + j from by omega]
          exact this
      · intro _
        by_cases hn' : 0 < n'
        · rcases hlast hn' with hstop | hfuel
          · left
            rw [show page + (n' + 1 - 1) = (page + 1) + (n' - 1) from by omega]
            exact hstop
          · right
            omega
        · have hf0 : fuel = 0 := by
            by_contra hf
            exact hn' (hpos (by omega))
          right
          omega

theorem pageLoop_pure_spec (pages : Nat → PageData α) (handle : σ → α → σ)
    (cap : Nat) (s : σ) (hcap : 0 < cap) :
    (pageLoop (pureFetch pages) handle cap s).isOk = true ∧
    ∃ n, 0 < n ∧ n ≤ cap ∧
      (pageLoop (pureFetch pages) handle cap s).fetched =
        (List.range n).map (fun i => 1 + i) ∧
      (∀ p, 1 ≤ p → p < n → stopPageB pages p = false) ∧
      (stopPageB pages n = true ∨ n = cap) := by
  obtain ⟨s', t', heq⟩ := pageLoopAux_pureFetch pages handle cap 1 s 0 []
  obtain ⟨n, hfp, hle, hpos, hmid, hlast⟩ := fetchedPages_spec pages cap 1
  have hn : 0 < n := hpos hcap
  have hfetched : (pageLoop (pureFetch pages) handle cap s).fetched =
      fetchedPages pages cap 1 := by
    unfold pageLoop
    rw [heq]
    simp [LoopOut.fetched]
  have hok : (pageLoop (pureFetch pages) handle cap s).isOk = true := by
    unfold pageLoop
    rw [heq]
    rfl
  refine ⟨hok, n, hn, hle, by rw [hfetched, hfp], ?_, ?_⟩
  · intro p h1 h2
    have h3 : (p - 1) + 1 < n := by omega
    have := hmid (p - 1) h3
    rw [show 1 + (p - 1) = p from by omega] at this
    exact this
  · rcases hlast hn with h | h
    · left
      rw [show 1 + (n - 1) = n from by omega] at h
      exact h
    · right
      exact h

theorem pageLoop_pure_no_pagination (pages : Nat → PageData α) (handle : σ → α → σ)
    (cap : Nat) (s : σ) (hcap : 0 < cap)
    (h : (pages 1).pagination = none) :
    (pageLoop (pureFetch pages) handle cap s).fetched = [1] := by
  obtain ⟨s', t', heq⟩ := pageLoopAux_pureFetch pages handle cap 1 s 0 []
  unfold pageLoop
  rw [heq]
  obtain ⟨f, rfl⟩ : ∃ f, cap = f + 1 := ⟨cap - 1, by omega⟩
  simp [LoopOut.fetched, fetchedPages, stopPageB, h]

theorem pageLoopAux_err (fetch : Nat → Except String (PageData α))
    (handle : σ → α → σ) (k : Nat) (msg : String)
    (herr : fetch k = .error msg)
    (hpre : ∀ p, 1 ≤ p → p < k → ∃ pd, fetch p = .ok pd ∧ pd.results ≠ [] ∧
      ∃ pg, pd.pagination = some pg ∧ p < pg.max_page) :
    ∀ (fuel page : Nat) (s : σ) (total : Nat) (tr : List Nat),
      1 ≤ page → page ≤ k → k < page + fuel →
      ∃ s', pageLoopAux fetch handle fuel page s total tr =
        LoopOut.err s' (tr ++ (List.range (k + 1 - page)).map (fun i => page + i)) msg := by
  intro fuel
  induction fuel with
  | zero =>
    intro page s total tr h1 h2 h3
    exact absurd h3 (by omega)
  | succ fuel ih =>
    intro page s total tr h1 h2 h3
    by_cases hpk : page = k
    · refine ⟨s, ?_⟩
      rw [hpk, show k + 1 - k = 1 from by omega, show List.range 1 = [0] from rfl]
      simp [pageLoopAux, herr]
    · have hplt : page < k := by omega
      obtain ⟨pd, hok, hne, pg, hpg, hlt⟩ := hpre page h1 hplt
      obtain ⟨s', iheq⟩ := ih (page + 1) (pd.results.foldl handle s)
        (total + pd.results.length) (tr ++ [page]) (by omega) (by omega) (by omega)
      refine ⟨s', ?_⟩
      have hieq : pd.results.isEmpty = false := by
        cases hres : pd.results with
        | nil => exact absurd hres hne
        | cons x xs => rfl
      have hnm : ¬pg.max_page ≤ page := by omega
      have hstep : pageLoopAux fetch handle (fuel + 1) page s total tr =
          pageLoopAux fetch handle fuel (page + 1) (pd.results.foldl handle s)
            (total + pd.results.length) (tr ++ [page]) := by
        simp [pageLoopAux, hok, hieq, hpg, hnm]
      rw [hstep, iheq]
      rw [show k + 1 - page = (k - page) + 1 from by omega, range_map_add_cons]
      rw [show k - page = k + 1 - (page + 1) from by omega]
      simp

/-! ## Claim C9: loop termination conditions -/

/-- C9.  Against an error-free source, each sync's page loop finishes without
error having fetched exactly the pages `1 .. n`, where `n` is the first page
satisfying a stop condition (empty results, missing pagination metadata, or
`max_page` reached) unless the hard cap cuts in first; the legislator cap is
10 and the bill cap is 20; and a first page with no pagination metadata at
all ends the sync after exactly that one page. -/
theorem page_loops_stop_at_first_condition (pagesL : Nat → PageData LegRecord)
    (pagesB : Nat → PageData BillRecord) (now : Nat) (db : DB) :
    ((legislatorPageLoop (pureFetch pagesL) now db).isOk = true ∧
      ∃ n, 0 < n ∧ n ≤ 10 ∧
        (legislatorPageLoop (pureFetch pagesL) now db).fetched =
          (List.range n).map (fun i => 1 + i) ∧
        (∀ p, 1 ≤ p → p < n → stopPageB pagesL p = false) ∧
        (stopPageB pagesL n = true ∨ n = 10)) ∧
    ((billPageLoop (pureFetch pagesB) now db).isOk = true ∧
      ∃ n, 0 < n ∧ n ≤ 20 ∧
        (billPageLoop (pureFetch pagesB) now db).fetched =
          (List.range n).map (fun i => 1 + i) ∧
        (∀ p, 1 ≤ p → p < n → stopPageB pagesB p = false) ∧
        (stopPageB pagesB n = true ∨ n = 20)) ∧
    ((pagesL 1).pagination = none →
      (legislatorPageLoop (pureFetch pagesL) now db).fetched = [1]) ∧
    ((pagesB 1).pagination = none →
      (billPageLoop (pureFetch pagesB) now db).fetched = [1]) ∧
    10 < 20 := by
  refine ⟨?_, ?_, ?_, ?_, by omega⟩
  · exact pageLoop_pure_spec pagesL _ 10 db (by omega)
  · exact pageLoop_pure_spec pagesB _ 20 db (by omega)
  · exact fun h => pageLoop_pure_no_pagination pagesL _ 10 db (by omega) h
  · exact fun h => pageLoop_pure_no_pagination pagesB _ 20 db (by omega) h

/-- Witness for C9 at sources with no pagination metadata: both loops stop
after page 1, without error. -/
theorem page_loops_stop_at_first_condition_w :
    (legislatorPageLoop (pureFetch constLegPages) 0 emptyDB).fetched = [1] ∧
    (billPageLoop (pureFetch constBillPages) 0 emptyDB).fetched = [1] ∧
    (legislatorPageLoop (pureFetch constLegPages) 0 emptyDB).isOk = true ∧
    (billPageLoop (pureFetch constBillPages) 0 emptyDB).isOk = true :=
  ⟨(page_loops_stop_at_first_condition constLegPages constBillPages 0 emptyDB).2.2.1 rfl,
   (page_loops_stop_at_first_condition constLegPages constBillPages 0 emptyDB).2.2.2.1 rfl,
   (page_loops_stop_at_first_condition constLegPages constBillPages 0 emptyDB).1.1,
   (page_loops_stop_at_first_condition constLegPages constBillPages 0 emptyDB).2.1.1⟩

/-! ## Claim C8: a fetch error aborts the sync and propagates -/

/-- C8.  If the legislator fetch of page `k` (reachable: every earlier page
succeeded with more pages announced) fails with `msg`, then the loop stops at
page `k` — pages beyond `k` are never attempted —, the `legislators` metadata
row records status `error` with the message, `syncLegislators` rethrows, and
the orchestrator then never starts bill sync and exits with code 1, leaving
the storage exactly as legislator sync left it. -/
theorem fetch_error_aborts_and_propagates
    (fetchL : Nat → Except String (PageData LegRecord))
    (fetchB : Nat → Except String (PageData BillRecord))
    (k : Nat) (msg : String) (now : Nat) (db : DB)
    (hk1 : 1 ≤ k) (hk : k ≤ 10)
    (herr : fetchL k = .error msg)
    (hpre : ∀ p, 1 ≤ p → p < k → ∃ pd, fetchL p = .ok pd ∧ pd.results ≠ [] ∧
      ∃ pg, pd.pagination = some pg ∧ p < pg.max_page) :
    (legislatorPageLoop fetchL now db).fetched =
      (List.range k).map (fun i => 1 + i) ∧
    ∃ db1,
      syncLegislators fetchL now db = (db1, Except.error msg) ∧
      db1.legMeta.status = "error" ∧
      db1.legMeta.error_message = some msg ∧
      db1.legMeta.last_sync_at = some now ∧
      runSync true fetchL fetchB now db =
        { db := db1, poolEnded := false, billsStarted := false,
          outcome := ExitKind.exited 1 } := by
  obtain ⟨s', heq⟩ := pageLoopAux_err fetchL
    (fun d r => { d with legislators := upsertLegRows d.legislators r now })
    k msg herr hpre 10 1 db 0 [] (by omega) hk1 (by omega)
  have hloop : legislatorPageLoop fetchL now db =
      LoopOut.err s' ((List.range k).map (fun i => 1 + i)) msg := by
    unfold legislatorPageLoop pageLoop
    rw [heq]
    rw [show k + 1 - 1 = k from by omega]
    simp
  refine ⟨by rw [hloop]; rfl, ?_⟩
  have hsync : syncLegislators fetchL now db =
      ({ s' with legMeta := { s'.legMeta with
           status := "error", last_sync_at := some now,
           error_message := some msg } }, Except.error msg) := by
    unfold syncLegislators
    rw [hloop]
  refine ⟨_, hsync, rfl, rfl, rfl, ?_⟩
  unfold runSync
  rw [if_pos rfl, hsync]

/-- Witness for C8: with a source failing on page 2, legislator sync fetches
pages 1 and 2 only, records the error, and the orchestrator skips bill sync
and exits non-zero. -/
theorem fetch_error_aborts_and_propagates_w :
    (legislatorPageLoop flakyLegFetch 0 emptyDB).fetched =
      (List.range 2).map (fun i => 1 + i) ∧
    ∃ db1,
      syncLegislators flakyLegFetch 0 emptyDB = (db1, Except.error "boom") ∧
      db1.legMeta.status = "error" ∧
      db1.legMeta.error_message = some "boom" ∧
      db1.legMeta.last_sync_at = some 0 ∧
      runSync true flakyLegFetch emptyBillFetch 0 emptyDB =
        { db := db1, poolEnded := false, billsStarted := false,
          outcome := ExitKind.exited 1 } :=
  fetch_error_aborts_and_propagates flakyLegFetch emptyBillFetch 2 "boom" 0 emptyDB
    (by omega) (by omega) rfl
    (by
      intro p h1 h2
      have hp1 : p = 1 := by omega
      subst hp1
      exact ⟨{ results := [aliceV1], pagination := some { max_page := 5 } },
        rfl, by decide, { max_page := 5 }, rfl, by decide⟩)

end BillPathOK
